import Mathlib

/-!
Shallow embedding of the `be-project-monitoring` backend (Go):
the API handlers and request/response structs of `internal/api/project.go`
and `internal/api/server.go`, the user model of `internal/domain/model/user.go`,
and the task model of the model file shipped unnamed in the repository.
Machine integers are modelled as `Nat`, `time.Time` as a `Nat` of seconds
(the Go zero time is `0`), `sql.NullString` as a string/valid pair,
`uuid.UUID` as `Nat`, and Go pointers that may be nil as `Option`.
Parts of the repository that are only declared here (the service layer behind
the `Service` interface of `server.go`) are modelled from the spec and marked
as such in their doc comments.
-/

namespace BeProjectMonitoring

/-- `time.Time`, as seconds; the Go zero value is `0`. -/
abbrev Time := Nat

/-- `sql.NullString`: the raw string together with the validity flag.
The Go accessor `.String` reads the raw string regardless of `Valid`. -/
structure NullString where
  str : String
  valid : Bool
  deriving DecidableEq, Repr

/-- A null `sql.NullString` (the Go zero value). -/
def NullString.null : NullString := ⟨"", false⟩

/-- A valid `sql.NullString` holding `s`. -/
def NullString.mk' (s : String) : NullString := ⟨s, true⟩

/-- `model.UserRole` with its three constants from `internal/domain/model/user.go`:
`student`, `admin`, `project_manager`. -/
inductive UserRole where
  | student
  | admin
  | projectManager
  deriving DecidableEq, Repr

/-- `model.User` from `internal/domain/model/user.go`. -/
structure User where
  id : Nat
  role : UserRole
  colorCode : String
  email : String
  username : String
  firstName : String
  lastName : String
  group : String
  githubUsername : String
  hashedPassword : String
  deriving DecidableEq, Repr

/-- Modelled from the spec: the project-scoped `ParticipantRole`
(`Owner`, `Teamlead`, `member`); the participant model file is absent from
`src/`, only the constants `model.RoleOwner` and `model.RoleTeamlead` are
referenced by `internal/api/server.go` and `internal/api/project.go`. -/
inductive ParticipantRole where
  | owner
  | teamlead
  | member
  deriving DecidableEq, Repr

/-- Modelled from the spec: `model.ShortUser`, the short user projection
(id plus minimal display fields); absent from `src/`, referenced by
`internal/api/project.go`. It carries no credential hash. -/
structure ShortUser where
  id : Nat
  username : String
  firstName : String
  lastName : String
  group : String
  githubUsername : String
  colorCode : String
  deriving DecidableEq, Repr

/-- Modelled from the spec: the projection of a full `model.User` to its
`model.ShortUser` view, dropping the credential hash and internal fields. -/
def toShortUser (u : User) : ShortUser :=
  { id := u.id
    username := u.username
    firstName := u.firstName
    lastName := u.lastName
    group := u.group
    githubUsername := u.githubUsername
    colorCode := u.colorCode }

/-- Modelled from the spec: `model.Participant`, the (User × Project) join row
with its project-scoped role; absent from `src/`. `internal/api/project.go`
reads `participant.ID`, `.Role`, `.ProjectID` and `.ShortUser`. -/
structure Participant where
  id : Nat
  role : ParticipantRole
  projectID : Nat
  shortUser : ShortUser
  deriving DecidableEq, Repr

/-- `model.Project` as read by `makeProjectResponse` in
`internal/api/project.go`: id, name, nullable description / photo / report /
repo columns, and the due date `ActiveTo`. -/
structure Project where
  id : Nat
  name : String
  description : NullString
  photoURL : NullString
  reportURL : NullString
  reportName : NullString
  repoURL : NullString
  activeTo : Time
  deriving DecidableEq, Repr

/-! ### Update requests (claim C1)

`UpdateProjectReq` from `internal/api/project.go` lines 61-70. Six columns are
`*string` (nullable pointers), but `ActiveTo` is a plain `time.Time` with no
null state. -/

/-- `UpdateProjectReq`: the decoded Go struct. The pointer fields are
`Option`; `activeTo` mirrors the non-pointer `time.Time` field. -/
structure UpdateProjectReq where
  id : Nat
  name : Option String
  description : Option String
  photoURL : Option String
  reportURL : Option String
  reportName : Option String
  repoURL : Option String
  activeTo : Time
  deriving DecidableEq, Repr

/-- A JSON request body for the update endpoint, at the wire level: every
key may be absent (`none`). -/
structure UpdateProjectBody where
  id : Nat
  name : Option String
  description : Option String
  photoURL : Option String
  reportURL : Option String
  reportName : Option String
  repoURL : Option String
  activeTo : Option Time
  deriving DecidableEq, Repr

/-- `encoding/json` decoding of an update body into `UpdateProjectReq`:
an absent key leaves the struct field at its Go zero value, so the `*string`
fields stay `nil` (`none`) when omitted, while an omitted `dueDate` leaves
`ActiveTo` at the zero time `0`. -/
def decodeUpdateProjectReq (b : UpdateProjectBody) : UpdateProjectReq :=
  { id := b.id
    name := b.name
    description := b.description
    photoURL := b.photoURL
    reportURL := b.reportURL
    reportName := b.reportName
    repoURL := b.repoURL
    activeTo := b.activeTo.getD 0 }

/-- Modelled from the spec: the project service's `UpdateProject` column
write, whose implementation is absent from `src/` (`server.go` only declares
the `projectService` interface). Per the spec, only the non-null optional
fields of the request overwrite the stored columns and null fields are
preserved; `ActiveTo` is not an optional field of `UpdateProjectReq` (a plain
`time.Time`, never null), so its value is always written. -/
def applyUpdateProject (p : Project) (r : UpdateProjectReq) : Project :=
  { p with
    name := r.name.getD p.name
    description := (r.description.map NullString.mk').getD p.description
    photoURL := (r.photoURL.map NullString.mk').getD p.photoURL
    reportURL := (r.reportURL.map NullString.mk').getD p.reportURL
    reportName := (r.reportName.map NullString.mk').getD p.reportName
    repoURL := (r.repoURL.map NullString.mk').getD p.repoURL
    activeTo := r.activeTo }

/-- A stored project with a non-zero due date, used to exercise the update. -/
def sampleProject : Project :=
  { id := 1
    name := "monitoring"
    description := NullString.mk' "desc"
    photoURL := NullString.null
    reportURL := NullString.null
    reportName := NullString.null
    repoURL := NullString.null
    activeTo := 5 }

/-- An update body that omits every optional field, the due date included. -/
def emptyUpdateBody : UpdateProjectBody :=
  { id := 1
    name := none
    description := none
    photoURL := none
    reportURL := none
    reportName := none
    repoURL := none
    activeTo := none }

/-! ### Task model (claim C6)

From the unnamed model file of the repository (the current `model` task file):
the `TaskStatus` constants `BACKLOG`, `IN_PROGRESS`, `REVIEW`, `DONE`
(`Testing` is commented out there) and the `TaskStatuses` membership map.
The superseded task file embedded after `repository.go` holds an older
five-entry map with different literals. -/

/-- `model.TaskStatus` is a string in Go. -/
abbrev TaskStatus := String

/-- The keys of the current `var TaskStatuses map[string]struct\x7b\x7d`. -/
def TaskStatuses : List String := ["BACKLOG", "IN_PROGRESS", "REVIEW", "DONE"]

/-- The keys of the superseded `TaskStatuses` map kept in the document
embedded after `internal/domain/repository/repository.go`. -/
def TaskStatusesOld : List String :=
  ["TODO", "In progress", "In review", "Testing", "Done"]

/-- `model.ShortTask` from the unnamed model file. -/
structure ShortTask where
  id : Nat
  name : String
  description : NullString
  participantID : Option Int
  creatorID : Option Int
  status : TaskStatus
  estimate : NullString
  createdAt : Time
  updatedAt : Time
  deriving DecidableEq, Repr

/-- `model.Task`: a `ShortTask` plus its project id. -/
structure Task where
  shortTask : ShortTask
  projectID : Nat
  deriving DecidableEq, Repr

/-- Modelled from the spec: the task service's status handling on update
(`UpdateTask` implementation absent from `src/`): a requested status must be a
member of `TaskStatuses`, and no transition graph is consulted — the stored
status is replaced by any known literal. -/
def applyStatusUpdate (t : Task) (s : TaskStatus) : Except String Task :=
  if TaskStatuses.contains s then
    Except.ok { t with shortTask := { t.shortTask with status := s } }
  else
    Except.error "invalid status"

/-! ### Persistence store and the service layer

The `Service` interface of `internal/api/server.go` is implemented outside
`src/`; the operations the claims need are modelled from the spec over an
explicit store. -/

/-- The persistent state visible to the modelled services. -/
structure Store where
  nextProjectID : Nat
  nextParticipantID : Nat
  users : List User
  projects : List Project
  participants : List Participant
  tasks : List Task
  deriving DecidableEq, Repr

/-- Fault-injection switches standing for failures of the external
persistence layer (connection loss, constraint violations reported by the
database, ...). -/
structure SvcFaults where
  createProjectFails : Bool
  addParticipantFails : Bool
  deriving DecidableEq, Repr

/-- Modelled from the spec: `CreateProject` validates the required name and
persists the project under a fresh id; absent from `src/`. -/
def svcCreateProject (f : SvcFaults) (st : Store) (name description photoURL : String)
    (activeTo : Time) : Except String (Project × Store) :=
  if f.createProjectFails then Except.error "create project failed"
  else if name = "" then Except.error "name is required"
  else
    let p : Project :=
      { id := st.nextProjectID
        name := name
        description := NullString.mk' description
        photoURL := NullString.mk' photoURL
        reportURL := NullString.null
        reportName := NullString.null
        repoURL := NullString.null
        activeTo := activeTo }
    Except.ok (p, { st with
      nextProjectID := st.nextProjectID + 1
      projects := st.projects ++ [p] })

/-- Modelled from the spec: `AddParticipant` resolves the user, rejects a
duplicate (user, project) row with a conflict, and persists the row under a
fresh id; absent from `src/`. -/
def svcAddParticipant (f : SvcFaults) (st : Store) (role : ParticipantRole)
    (userID projectID : Nat) : Except String (Participant × Store) :=
  if f.addParticipantFails then Except.error "add participant failed"
  else
    match st.users.find? (fun u => u.id == userID) with
    | none => Except.error "user not found"
    | some u =>
      if st.participants.any (fun q => q.shortUser.id == userID && q.projectID == projectID) then
        Except.error "participant already exists"
      else
        let q : Participant :=
          { id := st.nextParticipantID
            role := role
            projectID := projectID
            shortUser := toShortUser u }
        Except.ok (q, { st with
          nextParticipantID := st.nextParticipantID + 1
          participants := st.participants ++ [q] })

/-- Modelled from the spec: `GetParticipants` returns the rows of the given
project; absent from `src/`. -/
def svcGetParticipants (st : Store) (projectID : Nat) : List Participant :=
  st.participants.filter (fun q => q.projectID == projectID)

/-- Modelled from the spec: `UpdateProject` resolves the project by the
request's id (not-found when absent), applies the sparse patch
`applyUpdateProject` and persists the result; absent from `src/`. A nil
request pointer (the Go handler passes the package-level `*UpdateProjectReq`)
dereferences nil inside the service. -/
def svcUpdateProject (st : Store) (r : Option UpdateProjectReq) :
    Except String (Project × Store) :=
  match r with
  | none => Except.error "nil pointer dereference"
  | some r =>
    match st.projects.find? (fun p => p.id == r.id) with
    | none => Except.error "project not found"
    | some p =>
      let p' := applyUpdateProject p r
      Except.ok (p', { st with
        projects := st.projects.map (fun q => if q.id == r.id then p' else q) })

/-! ### Response structs and their builders (`internal/api/project.go`) -/

/-- `string(role)` as used for the `Role` field of participant responses. -/
def ParticipantRole.toGoString : ParticipantRole → String
  | .owner => "owner"
  | .teamlead => "teamlead"
  | .member => "member"

/-- `ShortProjectResp`. -/
structure ShortProjectResp where
  id : Nat
  name : String
  description : String
  photoURL : String
  activeTo : Time
  deriving DecidableEq, Repr

/-- `ProjectResp`: the short projection plus report and repository fields. -/
structure ProjectResp where
  short : ShortProjectResp
  reportURL : String
  reportName : String
  repoURL : String
  deriving DecidableEq, Repr

/-- `ParticipantResp` as assembled in `createProject`
(`ID`, `Role`, `ProjectID`, `User model.ShortUser`). -/
structure ParticipantResp where
  id : Nat
  role : String
  projectID : Nat
  user : ShortUser
  deriving DecidableEq, Repr

/-- `CreateProjectResp`: a `ProjectResp` plus the owner participant. -/
structure CreateProjectResp where
  project : ProjectResp
  participant : ParticipantResp
  deriving DecidableEq, Repr

/-- `projectWithParticipantsResp`. -/
structure ProjectWithParticipantsResp where
  project : ProjectResp
  participants : List ParticipantResp
  deriving DecidableEq, Repr

/-- Modelled from the spec: `ShortTaskResp` and its builder live in the task
handler file absent from `src/`; the struct mirrors `model.ShortTask`'s JSON
fields as `internal/api/project.go` embeds it in `projectInfoResp`. -/
structure ShortTaskResp where
  id : Nat
  title : String
  description : String
  asignee : Option Int
  creatorID : Option Int
  status : TaskStatus
  estimate : String
  createdAt : Time
  updatedAt : Time
  deriving DecidableEq, Repr

/-- `projectInfoResp`: full project, raw participant rows, short tasks. -/
structure ProjectInfoResp where
  project : ProjectResp
  participants : List Participant
  tasks : List ShortTaskResp
  deriving DecidableEq, Repr

/-- `commitsInfoResp`: a short user and the commit metrics. -/
structure CommitsInfoResp where
  user : ShortUser
  count : Nat
  time : Nat
  deriving DecidableEq, Repr

/-- `makeProjectResponse` from `internal/api/project.go`: copies the project
fields, reading each `sql.NullString` through its raw `.String`. -/
def makeProjectResponse (p : Project) : ProjectResp :=
  { short :=
      { id := p.id
        name := p.name
        description := p.description.str
        photoURL := p.photoURL.str
        activeTo := p.activeTo }
    reportURL := p.reportURL.str
    reportName := p.reportName.str
    repoURL := p.repoURL.str }

/-- Modelled from the spec: `makeParticipantResponse` (participant handler
file absent from `src/`), following the `ParticipantResp` literal built in
`createProject`. -/
def makeParticipantResponse (q : Participant) : ParticipantResp :=
  { id := q.id
    role := q.role.toGoString
    projectID := q.projectID
    user := q.shortUser }

/-- `makeParticipantResponses`, mapping `makeParticipantResponse` over rows. -/
def makeParticipantResponses (qs : List Participant) : List ParticipantResp :=
  qs.map makeParticipantResponse

/-- Modelled from the spec: `makeShortTaskResponse` (task handler file absent
from `src/`), mirroring `model.ShortTask` field by field. -/
def makeShortTaskResponse (t : ShortTask) : ShortTaskResp :=
  { id := t.id
    title := t.name
    description := t.description.str
    asignee := t.participantID
    creatorID := t.creatorID
    status := t.status
    estimate := t.estimate.str
    createdAt := t.createdAt
    updatedAt := t.updatedAt }

/-! ### Handlers (`internal/api/project.go`) -/

/-- What a handler writes to the HTTP response: a JSON payload with a status,
or `AbortWithStatusJSON` with an error body. -/
inductive HandlerOut (α : Type) where
  | json (status : Nat) (payload : α)
  | abort (status : Nat) (err : String)
  deriving DecidableEq, Repr

/-- The package-level variables of `internal/api/project.go` lines 87-90:
`updatedProject *UpdateProjectReq` and `deletedProjectID *int`. A nil pointer
is `none`. -/
structure Globals where
  updatedProject : Option UpdateProjectReq
  deletedProjectID : Option Int
  deriving DecidableEq, Repr

/-- The Go zero values of the package-level variables: both pointers nil. -/
def initialGlobals : Globals := { updatedProject := none, deletedProjectID := none }

/-- The zero `UpdateProjectReq` allocated by `parseBodyToUpdatedProject`
before decoding. -/
def zeroUpdateProjectReq : UpdateProjectReq :=
  { id := 0, name := none, description := none, photoURL := none
    reportURL := none, reportName := none, repoURL := none, activeTo := 0 }

/-- `parseBodyToUpdatedProject`: allocates a fresh struct into the
package-level `updatedProject`, decodes the body into it (on a decode error
the global keeps the fresh allocation — modelled as the zero struct — and the
request aborts with 400), and stores the decoded id in the request context.
Input `body` is `none` for a malformed JSON body. -/
def parseBodyToUpdatedProjectRun (g : Globals) (body : Option UpdateProjectBody) :
    Globals × Option (HandlerOut Unit) :=
  match body with
  | none => ({ g with updatedProject := some zeroUpdateProjectReq },
             some (HandlerOut.abort 400 "decode error"))
  | some b => ({ g with updatedProject := some (decodeUpdateProjectReq b) }, none)

/-- `parseBodyToDeletedProject`: decodes the body into the package-level
`*int` pointer itself. When the pointer is nil (its initial value — nothing
ever allocates it), `json.Decode` fails with an invalid-unmarshal error and
the global is left untouched; when it is non-nil the pointee is overwritten. -/
def parseBodyToDeletedProjectRun (g : Globals) (body : Int) :
    Globals × Option (HandlerOut Unit) :=
  match g.deletedProjectID with
  | none => (g, some (HandlerOut.abort 400 "json: Unmarshal(nil *int)"))
  | some _ => ({ g with deletedProjectID := some body }, none)

/-- `updateProject` (lines 163-178): calls the service with the package-level
`updatedProject` — the handler never reads the request body `body`, which is
threaded only to witness that fact — then fetches the participants of the
returned project and answers 200 with `projectWithParticipantsResp`. -/
def updateProjectRun (g : Globals) (st : Store) (body : String) :
    HandlerOut ProjectWithParticipantsResp × Store :=
  let _ := body
  match svcUpdateProject st g.updatedProject with
  | Except.error e => (HandlerOut.abort 400 e, st)
  | Except.ok (p, st') =>
    (HandlerOut.json 200
      { project := makeProjectResponse p
        participants := makeParticipantResponses (svcGetParticipants st' p.id) },
     st')

/-- Modelled from the spec: `DeleteProject` removes the project by id,
not-found when absent; absent from `src/`. -/
def svcDeleteProject (st : Store) (id : Int) : Except String Store :=
  if st.projects.any (fun p => (p.id : Int) == id) then
    Except.ok { st with projects := st.projects.filter (fun p => (p.id : Int) != id) }
  else Except.error "project not found"

/-- The observable outcome of one run of the `deleteProject` handler. -/
structure DeleteRun where
  panicNilDeref : Bool
  response : Option (HandlerOut Unit)
  svcDeleteCalled : Bool
  store : Store
  deriving DecidableEq, Repr

/-- `deleteProject` (lines 186-199): dereferences the package-level
`deletedProjectID` (`*deletedProjectID`) — a nil pointer panics before any
service call — then calls `DeleteProject` and answers 200 on success. -/
def deleteProjectRun (g : Globals) (st : Store) : DeleteRun :=
  match g.deletedProjectID with
  | none => { panicNilDeref := true, response := none, svcDeleteCalled := false, store := st }
  | some id =>
    match svcDeleteProject st id with
    | Except.error e =>
      { panicNilDeref := false, response := some (HandlerOut.abort 400 e)
        svcDeleteCalled := true, store := st }
    | Except.ok st' =>
      { panicNilDeref := false, response := some (HandlerOut.json 200 ())
        svcDeleteCalled := true, store := st' }

/-- `CreateProjectReq` from `internal/api/project.go` lines 18-23. -/
structure CreateProjectReq where
  name : String
  description : String
  activeTo : Time
  photoURL : String
  deriving DecidableEq, Repr

/-- The observable outcome of one run of the `createProject` handler:
the response, the resulting store, and whether `AddParticipant` was ever
invoked. -/
structure CreateRun where
  response : HandlerOut CreateProjectResp
  store : Store
  addParticipantCalled : Bool
  deriving DecidableEq, Repr

/-- `createProject` (lines 92-122): decode the body (`none` models a decode
error), call `CreateProject`, abort 400 on its error; then call
`AddParticipant` with role `Owner`, the authenticated user id from the
request context and the fresh project id, abort 400 on its error (the project
stays persisted); answer 201 with project and owner participant on success. -/
def createProjectRun (f : SvcFaults) (st : Store) (body : Option CreateProjectReq)
    (ctxUserID : Nat) : CreateRun :=
  match body with
  | none =>
    { response := HandlerOut.abort 400 "decode error", store := st
      addParticipantCalled := false }
  | some req =>
    match svcCreateProject f st req.name req.description req.photoURL req.activeTo with
    | Except.error e =>
      { response := HandlerOut.abort 400 e, store := st, addParticipantCalled := false }
    | Except.ok (p, st1) =>
      match svcAddParticipant f st1 ParticipantRole.owner ctxUserID p.id with
      | Except.error e =>
        { response := HandlerOut.abort 400 e, store := st1, addParticipantCalled := true }
      | Except.ok (q, st2) =>
        { response := HandlerOut.json 201
            { project := makeProjectResponse p, participant := makeParticipantResponse q }
          store := st2
          addParticipantCalled := true }

/-- `model.ProjectInfo` as read by `sendProjectInfoResponse`: the project,
its participant rows and its tasks. -/
structure ProjectInfo where
  project : Project
  participants : List Participant
  tasks : List Task
  deriving DecidableEq, Repr

/-- Modelled from the spec: `GetProjectInfo` fetches the project (not-found
when absent), its participants and its tasks; absent from `src/`. -/
def svcGetProjectInfo (st : Store) (id : Nat) : Except String ProjectInfo :=
  match st.projects.find? (fun p => p.id == id) with
  | none => Except.error "project not found"
  | some p =>
    Except.ok
      { project := p
        participants := st.participants.filter (fun q => q.projectID == id)
        tasks := st.tasks.filter (fun t => t.projectID == id) }

/-- `sendProjectInfoResponse` + `getProjectInfo` (lines 201-208, 301-328):
parse `projectId` from the path (`none` models a non-numeric parameter),
fetch the project info, and answer 200 with the full project fields, the raw
participant rows, and the short task projections. -/
def getProjectInfoRun (st : Store) (param : Option Nat) : HandlerOut ProjectInfoResp :=
  match param with
  | none => HandlerOut.abort 400 "invalid project id"
  | some pid =>
    match svcGetProjectInfo st pid with
    | Except.error e => HandlerOut.abort 400 e
    | Except.ok info =>
      HandlerOut.json 200
        { project :=
            { short :=
                { id := info.project.id
                  name := info.project.name
                  description := info.project.description.str
                  photoURL := info.project.photoURL.str
                  activeTo := info.project.activeTo }
              reportURL := info.project.reportURL.str
              reportName := info.project.reportName.str
              repoURL := info.project.repoURL.str }
          participants := info.participants
          tasks := info.tasks.map (fun t => makeShortTaskResponse t.shortTask) }

/-- `model.CommitsInfo` as read by `getProjectCommits` and
`getProjectReport`: a short user plus flat display fields and the commit
counters; absent from `src/`, fields taken from their uses in
`internal/api/project.go`. -/
structure CommitsInfo where
  shortUser : ShortUser
  firstName : String
  lastName : String
  githubUsername : String
  group : String
  totalCommits : Nat
  firstCommitDate : Time
  lastCommitDate : Time
  deriving DecidableEq, Repr

/-- `getProjectCommits` (lines 209-235): parse `projectId` (abort 400 when
non-numeric), call `GetProjectCommits`; when the service fails the handler
does `return` WITHOUT writing any response (modelled as `none`); otherwise
answer 200 with the per-user metrics, `Time` being the truncated hour count
between first and last commit. -/
def getProjectCommitsRun (param : Option Nat)
    (svcCommits : Except String (List CommitsInfo)) :
    Option (HandlerOut (List CommitsInfoResp)) :=
  match param with
  | none => some (HandlerOut.abort 400 "invalid project id")
  | some _ =>
    match svcCommits with
    | Except.error _ => none
    | Except.ok infos =>
      some (HandlerOut.json 200 (infos.map (fun info =>
        { user := info.shortUser
          count := info.totalCommits
          time := (info.lastCommitDate - info.firstCommitDate) / 3600 })))

/-- `getProjectReport` (lines 237-299): parse `projectId` (abort 400 when
non-numeric), fill the header cells, call `GetProjectCommits`; when the
service fails the handler does `return` WITHOUT writing any response
(modelled as `none`); otherwise stream the spreadsheet (its bytes are
external, modelled as the unit payload). -/
def getProjectReportRun (param : Option Nat)
    (svcCommits : Except String (List CommitsInfo)) : Option (HandlerOut Unit) :=
  match param with
  | none => some (HandlerOut.abort 400 "invalid project id")
  | some _ =>
    match svcCommits with
    | Except.error _ => none
    | Except.ok _ => some (HandlerOut.json 200 ())

/-! ### Authorization (claim C3) -/

/-- The error taxonomy of the token service. -/
inductive AuthErr where
  | unauthorized
  | forbidden
  deriving DecidableEq, Repr

/-- Modelled from the spec: `VerifyParticipantRole` (the `tokenService`
implementation is absent from `src/`; `internal/api/server.go` lines 46-52
only declare the interface). Per the spec: the global-role Admin bypass is an
explicit first step that short-circuits before the participant gate;
otherwise the Participant row for (user, project) is resolved — `Forbidden`
when absent — and its project-scoped role must be in `toAllow`. -/
def verifyParticipantRole (u : User) (participants : List Participant)
    (projectID : Nat) (toAllow : List ParticipantRole) : Except AuthErr Unit :=
  if u.role = UserRole.admin then Except.ok ()
  else
    match participants.find? (fun q => q.shortUser.id == u.id && q.projectID == projectID) with
    | none => Except.error AuthErr.forbidden
    | some q =>
      if toAllow.contains q.role then Except.ok () else Except.error AuthErr.forbidden

/-! ### Routing table (`internal/api/server.go`, claims C7 and C10) -/

/-- The gin handlers and middlewares of the `api` package, by name.
`authMW` carries the allowed global roles of `authMiddleware`;
`verifyParticipantRoleMW` carries the allowed participant roles. -/
inductive GinHandler where
  | authMW (allowed : List UserRole)
  | selfUpdateMW
  | verifyParticipantMW
  | verifyParticipantRoleMW (allowed : List ParticipantRole)
  | parseBodyToUpdatedProject
  | parseBodyToDeletedProject
  | indexPage
  | auth
  | register
  | getPartialUsers
  | getUserProfile
  | updateUser
  | createProject
  | updateProject
  | getProjectInfo
  | deleteProject
  | addParticipant
  | deleteParticipant
  | createTask
  | updateTask
  | getTaskInfo
  | deleteTask
  | getFullUsers
  | getProjects
  | getProjectCommits
  | getProjectReport
  deriving DecidableEq, Repr

/-- A registered route: HTTP method, path, the middleware chain (group
middlewares first, then route middlewares, in registration order) and the
terminal handler. -/
structure Route where
  method : String
  path : String
  middlewares : List GinHandler
  handler : GinHandler
  deriving DecidableEq, Repr

/-- The routing table built by `New` in `internal/api/server.go`
lines 96-144, with group middlewares inlined into each route's chain. -/
def routes : List Route :=
  [ ⟨"GET", "/index", [], GinHandler.indexPage⟩,
    ⟨"POST", "/api/auth", [], GinHandler.auth⟩,
    ⟨"POST", "/api/register", [], GinHandler.register⟩,
    ⟨"GET", "/api/user/", [], GinHandler.getPartialUsers⟩,
    ⟨"GET", "/api/user/:id", [], GinHandler.getUserProfile⟩,
    ⟨"POST", "/api/user/:id", [GinHandler.selfUpdateMW], GinHandler.updateUser⟩,
    ⟨"POST", "/api/pm/", [GinHandler.authMW [UserRole.projectManager]],
      GinHandler.createProject⟩,
    ⟨"POST", "/api/project/",
      [GinHandler.authMW [UserRole.admin, UserRole.projectManager, UserRole.student]],
      GinHandler.updateProject⟩,
    ⟨"GET", "/api/project/:project_id",
      [GinHandler.authMW [UserRole.admin, UserRole.projectManager, UserRole.student]],
      GinHandler.getProjectInfo⟩,
    ⟨"DELETE", "/api/project/:project_id",
      [GinHandler.authMW [UserRole.admin, UserRole.projectManager, UserRole.student],
       GinHandler.verifyParticipantRoleMW [ParticipantRole.owner]],
      GinHandler.deleteProject⟩,
    ⟨"POST", "/api/project/:project_id/",
      [GinHandler.authMW [UserRole.admin, UserRole.projectManager, UserRole.student],
       GinHandler.verifyParticipantRoleMW [ParticipantRole.owner, ParticipantRole.teamlead]],
      GinHandler.addParticipant⟩,
    ⟨"DELETE", "/api/project/:project_id/:user_id",
      [GinHandler.authMW [UserRole.admin, UserRole.projectManager, UserRole.student],
       GinHandler.verifyParticipantRoleMW [ParticipantRole.owner, ParticipantRole.teamlead]],
      GinHandler.deleteParticipant⟩,
    ⟨"POST", "/api/project/:project_id/task/",
      [GinHandler.authMW [UserRole.admin, UserRole.projectManager, UserRole.student],
       GinHandler.verifyParticipantMW],
      GinHandler.createTask⟩,
    ⟨"PUT", "/api/project/:project_id/task/",
      [GinHandler.authMW [UserRole.admin, UserRole.projectManager, UserRole.student],
       GinHandler.verifyParticipantMW],
      GinHandler.updateTask⟩,
    ⟨"GET", "/api/project/:project_id/task/:task_id",
      [GinHandler.authMW [UserRole.admin, UserRole.projectManager, UserRole.student],
       GinHandler.verifyParticipantMW],
      GinHandler.getTaskInfo⟩,
    ⟨"DELETE", "/api/project/:project_id/task/:task_id",
      [GinHandler.authMW [UserRole.admin, UserRole.projectManager, UserRole.student],
       GinHandler.verifyParticipantMW],
      GinHandler.deleteTask⟩,
    ⟨"GET", "/api/admin/users", [GinHandler.authMW [UserRole.admin]],
      GinHandler.getFullUsers⟩,
    ⟨"POST", "/api/admin/users", [GinHandler.authMW [UserRole.admin]],
      GinHandler.updateUser⟩,
    ⟨"GET", "/api/admin/projects", [GinHandler.authMW [UserRole.admin]],
      GinHandler.getProjects⟩ ]

/-- Modelled from the spec: whether a middleware lets a request through, as a
function of the authenticated user's global role. `authMW` aborts unless that
role is in its allow list (an empty list accepting any authenticated user),
per the spec's `VerifyToken` contract; the outcome of the remaining
middlewares does not depend on the global role and is supplied by `oracle`. -/
def ginMiddlewarePasses (role : UserRole) (oracle : GinHandler → Bool) :
    GinHandler → Bool
  | GinHandler.authMW allowed => allowed.isEmpty || allowed.contains role
  | h => oracle h

/-- A request reaches a route's terminal handler exactly when every
middleware of the chain lets it through. -/
def reachesHandler (r : Route) (role : UserRole) (oracle : GinHandler → Bool) : Bool :=
  r.middlewares.all (ginMiddlewarePasses role oracle)

/-- The request-dependent inputs a gin handler may consume when it touches
the package-level variables: the decoded update body (`none` for malformed
JSON) and the integer body of the delete endpoint. -/
structure RequestData where
  updateBody : Option UpdateProjectBody
  intBody : Int
  deriving DecidableEq, Repr

/-- How each gin handler of the `api` package acts on the package-level
variables: only the two parse helpers touch them (`parseBodyToUpdatedProject`
assigns `updatedProject`; `parseBodyToDeletedProject` decodes through the
`deletedProjectID` pointer and assigns nothing when it is nil); every other
handler reads at most. -/
def globalsEffect (h : GinHandler) (g : Globals) (req : RequestData) : Globals :=
  match h with
  | GinHandler.parseBodyToUpdatedProject => (parseBodyToUpdatedProjectRun g req.updateBody).1
  | GinHandler.parseBodyToDeletedProject => (parseBodyToDeletedProjectRun g req.intBody).1
  | _ => g

/-- The package-level state after the process start (Go zero values) and an
arbitrary sequence of handler executions. -/
def runGlobals (l : List (GinHandler × RequestData)) : Globals :=
  l.foldl (fun g hr => globalsEffect hr.1 g hr.2) initialGlobals

/-- Overwrite the credential hash of the user `uid` in the store, leaving
every other column and table untouched. -/
def setHashedPassword (st : Store) (uid : Nat) (hp : String) : Store :=
  { st with
    users := st.users.map (fun u =>
      if u.id = uid then { u with hashedPassword := hp } else u) }

/-! ### Concrete inputs used by counterexamples and witnesses -/

/-- A registered user with the `project_manager` global role. -/
def witnessUser : User :=
  { id := 7, role := UserRole.projectManager, colorCode := "c", email := "e"
    username := "pm", firstName := "f", lastName := "l", group := "g"
    githubUsername := "gh", hashedPassword := "secret-hash" }

/-- A registered user with the `admin` global role. -/
def witnessAdmin : User :=
  { id := 9, role := UserRole.admin, colorCode := "c", email := "e"
    username := "adm", firstName := "f", lastName := "l", group := "g"
    githubUsername := "gh", hashedPassword := "secret-hash" }

/-- A store holding one registered user and no projects. -/
def witnessStore : Store :=
  { nextProjectID := 1, nextParticipantID := 1, users := [witnessUser]
    projects := [], participants := [], tasks := [] }

/-- A store holding two projects, for the update handler. -/
def twoProjectStore : Store :=
  { nextProjectID := 3, nextParticipantID := 1, users := [witnessUser]
    projects := [sampleProject, { sampleProject with id := 2, name := "other" }]
    participants := [], tasks := [] }

/-- An update request renaming project 1 to `"A"`. -/
def updateReqA : UpdateProjectReq := { zeroUpdateProjectReq with id := 1, name := some "A" }

/-- An update request renaming project 1 to `"B"`. -/
def updateReqB : UpdateProjectReq := { zeroUpdateProjectReq with id := 1, name := some "B" }

/-- A task sitting in the `BACKLOG` status. -/
def witnessTask : Task :=
  { shortTask :=
      { id := 1, name := "t", description := NullString.null, participantID := none
        creatorID := none, status := "BACKLOG", estimate := NullString.null
        createdAt := 0, updatedAt := 0 }
    projectID := 1 }

/-- The registered delete-project route, as it appears in `routes`. -/
def deleteProjectRoute : Route :=
  ⟨"DELETE", "/api/project/:project_id",
    [GinHandler.authMW [UserRole.admin, UserRole.projectManager, UserRole.student],
     GinHandler.verifyParticipantRoleMW [ParticipantRole.owner]],
    GinHandler.deleteProject⟩

/-- The registered create-project route, as it appears in `routes`. -/
def createProjectRoute : Route :=
  ⟨"POST", "/api/pm/", [GinHandler.authMW [UserRole.projectManager]],
    GinHandler.createProject⟩

/-! ## Theorems -/

/-- Discharging a repeated `Option.getD` of the same option. -/
theorem option_getD_getD {α : Type} (o : Option α) (x : α) :
    o.getD (o.getD x) = o.getD x := by cases o <;> rfl

/-- C1 (counterexample): an update body that omits every optional field, the
due date included, does NOT preserve the stored due date: decoding leaves the
non-pointer `ActiveTo` at the Go zero time, which the update then writes over
the prior value `5`. -/
theorem updateProject_omitted_dueDate_overwritten :
    emptyUpdateBody.activeTo = none ∧
    (applyUpdateProject sampleProject (decodeUpdateProjectReq emptyUpdateBody)).activeTo ≠
      sampleProject.activeTo :=
  ⟨rfl, by decide⟩

/-- C1 (amended): the update is a sparse patch for the six nullable pointer
fields of `UpdateProjectReq` — an omitted (null) field keeps its prior stored
value, and repeating the same partial update changes nothing further — but
the due date is a non-nullable `time.Time` field that is always written: an
omitted `dueDate` decodes to the zero time and overwrites the stored value. -/
theorem updateProject_sparse_patch_amended (p : Project) (b : UpdateProjectBody) :
    (applyUpdateProject p (decodeUpdateProjectReq b)).name = b.name.getD p.name ∧
    (applyUpdateProject p (decodeUpdateProjectReq b)).description =
      (b.description.map NullString.mk').getD p.description ∧
    (applyUpdateProject p (decodeUpdateProjectReq b)).photoURL =
      (b.photoURL.map NullString.mk').getD p.photoURL ∧
    (applyUpdateProject p (decodeUpdateProjectReq b)).reportURL =
      (b.reportURL.map NullString.mk').getD p.reportURL ∧
    (applyUpdateProject p (decodeUpdateProjectReq b)).reportName =
      (b.reportName.map NullString.mk').getD p.reportName ∧
    (applyUpdateProject p (decodeUpdateProjectReq b)).repoURL =
      (b.repoURL.map NullString.mk').getD p.repoURL ∧
    (applyUpdateProject p (decodeUpdateProjectReq b)).activeTo = b.activeTo.getD 0 ∧
    applyUpdateProject (applyUpdateProject p (decodeUpdateProjectReq b))
        (decodeUpdateProjectReq b) =
      applyUpdateProject p (decodeUpdateProjectReq b) := by
  refine ⟨rfl, rfl, rfl, rfl, rfl, rfl, rfl, ?_⟩
  simp [applyUpdateProject, decodeUpdateProjectReq, option_getD_getD]

/-- C3: a user whose global role is Admin passes `VerifyParticipantRole` for
every project, and the result never consults the participant rows — it is
the same for every participant table, including the empty one. -/
theorem admin_bypasses_participant_role (u : User) (ps : List Participant)
    (pid : Nat) (allow : List ParticipantRole) (h : u.role = UserRole.admin) :
    verifyParticipantRole u ps pid allow = Except.ok () ∧
    ∀ ps' : List Participant,
      verifyParticipantRole u ps pid allow = verifyParticipantRole u ps' pid allow := by
  refine ⟨?_, fun ps' => ?_⟩ <;> simp [verifyParticipantRole, h]

/-- C3 (witness): the admin bypass evaluated on a project with zero
participant rows. -/
theorem admin_bypasses_participant_role_witness :
    witnessAdmin.role = UserRole.admin ∧
    verifyParticipantRole witnessAdmin [] 42 [] = Except.ok () :=
  ⟨rfl, (admin_bypasses_participant_role witnessAdmin [] 42 [] rfl).1⟩

/-- C6: the known task statuses are exactly
`BACKLOG`, `IN_PROGRESS`, `REVIEW`, `DONE` (four literals in the current
model; the superseded five-literal map uses different strings), and the
status update accepts any member of that set whatever the current status is:
no transition graph is enforced. -/
theorem task_statuses_and_free_transitions :
    (∀ s : String,
      s ∈ TaskStatuses ↔ (s = "BACKLOG" ∨ s = "IN_PROGRESS" ∨ s = "REVIEW" ∨ s = "DONE")) ∧
    (∀ (t : Task) (s : TaskStatus), t.shortTask.status ∈ TaskStatuses → s ∈ TaskStatuses →
      applyStatusUpdate t s =
        Except.ok { t with shortTask := { t.shortTask with status := s } }) := by
  constructor
  · intro s; simp [TaskStatuses]
  · intro t s _ hs
    simp [applyStatusUpdate, hs]

/-- C6 (witness): the `BACKLOG → DONE` transition, skipping the intermediate
statuses, is accepted. -/
theorem task_statuses_and_free_transitions_witness :
    applyStatusUpdate witnessTask "DONE" =
      Except.ok { witnessTask with
        shortTask := { witnessTask.shortTask with status := "DONE" } } :=
  task_statuses_and_free_transitions.2 witnessTask "DONE" (by decide) (by decide)

/-- C8 (code bug): when `GetProjectCommits` fails, both `getProjectCommits`
and `getProjectReport` return without writing any response — the error is
silently swallowed instead of being surfaced as an error payload. -/
theorem commits_service_error_silently_swallowed :
    getProjectCommitsRun (some 1) (Except.error "db error") = none ∧
    getProjectReportRun (some 1) (Except.error "db error") = none :=
  ⟨rfl, rfl⟩

/-- C4 (counterexample): the update handler produces different responses for
the SAME request body under different prior values of the package-level
`updatedProject`; `parseBodyToUpdatedProject` overwrites that shared
package-level variable; and `deleteProject`'s outcome depends on the
package-level `deletedProjectID`. -/
theorem update_delete_handlers_read_shared_globals :
    (updateProjectRun ⟨some updateReqA, none⟩ twoProjectStore "same-body").1 ≠
      (updateProjectRun ⟨some updateReqB, none⟩ twoProjectStore "same-body").1 ∧
    (parseBodyToUpdatedProjectRun initialGlobals (some emptyUpdateBody)).1 ≠
      initialGlobals ∧
    deleteProjectRun ⟨none, some 1⟩ twoProjectStore ≠
      deleteProjectRun ⟨none, none⟩ twoProjectStore :=
  ⟨by decide, by decide, by decide⟩

/-- C4 (amended): the responses of the update and delete handlers are
functions of the package-level variables and the store, not of the request:
`updateProject` ignores the request body entirely, and
`parseBodyToUpdatedProject` overwrites the shared `updatedProject` variable
on every invocation, so an interleaved parse changes a later handler run. -/
theorem update_handlers_governed_by_globals (g : Globals) (st : Store) (b b' : String) :
    updateProjectRun g st b = updateProjectRun g st b' ∧
    (∀ body, (parseBodyToUpdatedProjectRun g body).1.updatedProject =
      some ((body.map decodeUpdateProjectReq).getD zeroUpdateProjectReq)) := by
  refine ⟨rfl, fun body => ?_⟩
  cases body <;> rfl

/-- C7: every registered route whose terminal handler is `createProject`
carries the `authMiddleware(model.ProjectManager)` gate, so any request that
reaches the handler is authenticated with global role `project_manager`. -/
theorem createProject_requires_project_manager
    (r : Route) (hr : r ∈ routes) (hh : r.handler = GinHandler.createProject)
    (role : UserRole) (oracle : GinHandler → Bool)
    (hreach : reachesHandler r role oracle = true) :
    role = UserRole.projectManager := by
  have hmw : GinHandler.authMW [UserRole.projectManager] ∈ r.middlewares := by
    revert hh; fin_cases hr <;> decide
  have hpass := List.all_eq_true.mp hreach _ hmw
  cases role <;> simp_all [ginMiddlewarePasses]

/-- C7 (witness): the `/api/pm/` route reaches `createProject` with the
`project_manager` role. -/
theorem createProject_requires_project_manager_witness :
    createProjectRoute ∈ routes ∧
    createProjectRoute.handler = GinHandler.createProject ∧
    reachesHandler createProjectRoute UserRole.projectManager (fun _ => true) = true ∧
    UserRole.projectManager = UserRole.projectManager :=
  ⟨by decide, rfl, by decide,
   createProject_requires_project_manager createProjectRoute (by decide) rfl
     UserRole.projectManager (fun _ => true) (by decide)⟩

/-- C5: the two creation steps fail distinctly and neither failure is
swallowed: a failing `CreateProject` yields an error response with no
`AddParticipant` call and an unchanged store; a failing `AddParticipant`
after a successful `CreateProject` yields an error response (never the 201
success) while the store holds the project but no new participant — the
partial-failure state is surfaced. -/
theorem createProject_failures_surfaced
    (b : Bool) (st : Store) (req : CreateProjectReq) (uid : Nat)
    (hn : ¬ req.name = "") :
    ((createProjectRun ⟨true, b⟩ st (some req) uid).response =
        HandlerOut.abort 400 "create project failed" ∧
     (createProjectRun ⟨true, b⟩ st (some req) uid).addParticipantCalled = false ∧
     (createProjectRun ⟨true, b⟩ st (some req) uid).store = st) ∧
    ((createProjectRun ⟨false, true⟩ st (some req) uid).response =
        HandlerOut.abort 400 "add participant failed" ∧
     (∀ resp, (createProjectRun ⟨false, true⟩ st (some req) uid).response ≠
        HandlerOut.json 201 resp) ∧
     (∃ p : Project, (createProjectRun ⟨false, true⟩ st (some req) uid).store.projects =
        st.projects ++ [p]) ∧
     (createProjectRun ⟨false, true⟩ st (some req) uid).store.participants =
        st.participants) := by
  constructor
  · refine ⟨?_, ?_, ?_⟩ <;> simp [createProjectRun, svcCreateProject]
  · refine ⟨?_, ?_, ?_, ?_⟩ <;>
      simp [createProjectRun, svcCreateProject, svcAddParticipant, hn]

/-- C5 (witness): both failure modes evaluated on a concrete store and
request. -/
theorem createProject_failures_surfaced_witness :
    ¬ (CreateProjectReq.mk "x" "d" 3 "a").name = "" ∧
    (createProjectRun ⟨true, false⟩ witnessStore
        (some (CreateProjectReq.mk "x" "d" 3 "a")) 7).addParticipantCalled = false ∧
    (createProjectRun ⟨false, true⟩ witnessStore
        (some (CreateProjectReq.mk "x" "d" 3 "a")) 7).response =
      HandlerOut.abort 400 "add participant failed" :=
  ⟨by decide,
   (createProject_failures_surfaced false witnessStore
      (CreateProjectReq.mk "x" "d" 3 "a") 7 (by decide)).1.2.1,
   (createProject_failures_surfaced false witnessStore
      (CreateProjectReq.mk "x" "d" 3 "a") 7 (by decide)).2.1⟩

/-- C2: a successful run of the create-project handler answers 201, and the
store then holds exactly one participant row for the new project: an Owner
row whose user id is the authenticated creator's id from the request
context. -/
theorem createProject_creates_single_owner
    (f : SvcFaults) (st : Store) (req : CreateProjectReq) (uid : Nat) (u0 : User)
    (hc : f.createProjectFails = false) (ha : f.addParticipantFails = false)
    (hn : ¬ req.name = "")
    (hu : st.users.find? (fun u => u.id == uid) = some u0)
    (hfresh : ∀ q ∈ st.participants, q.projectID ≠ st.nextProjectID) :
    (∃ resp, (createProjectRun f st (some req) uid).response = HandlerOut.json 201 resp) ∧
    ((createProjectRun f st (some req) uid).store.participants.filter
        (fun q => q.projectID == st.nextProjectID)).map
      (fun q => (q.role, q.shortUser.id)) = [(ParticipantRole.owner, uid)] := by
  have hid : u0.id = uid := by
    have := List.find?_some hu
    simpa using this
  have hdup : st.participants.any
      (fun q => q.shortUser.id == uid && q.projectID == st.nextProjectID) = false := by
    rw [List.any_eq_false]
    intro q hq
    simp only [Bool.and_eq_true, beq_iff_eq, not_and]
    exact fun _ h => hfresh q hq h
  have hnil : st.participants.filter
      (fun q => q.projectID == st.nextProjectID) = [] := by
    rw [List.filter_eq_nil_iff]
    intro q hq
    simpa using hfresh q hq
  unfold createProjectRun svcCreateProject svcAddParticipant
  simp only [hc, ha, if_neg hn, Bool.false_eq_true, if_false, hu, hdup,
    List.filter_append, hnil, List.nil_append]
  refine ⟨⟨_, rfl⟩, ?_⟩
  simp [toShortUser, hid]

/-- C2 (witness): creating a project in a one-user store leaves exactly the
creator's Owner row. -/
theorem createProject_creates_single_owner_witness :
    (∃ resp, (createProjectRun ⟨false, false⟩ witnessStore
        (some (CreateProjectReq.mk "x" "d" 3 "a")) 7).response =
      HandlerOut.json 201 resp) ∧
    ((createProjectRun ⟨false, false⟩ witnessStore
        (some (CreateProjectReq.mk "x" "d" 3 "a")) 7).store.participants.filter
        (fun q => q.projectID == witnessStore.nextProjectID)).map
      (fun q => (q.role, q.shortUser.id)) = [(ParticipantRole.owner, 7)] :=
  createProject_creates_single_owner ⟨false, false⟩ witnessStore
    (CreateProjectReq.mk "x" "d" 3 "a") 7 witnessUser rfl rfl (by decide) (by decide)
    (by simp [witnessStore])

/-- Overwriting a user's credential hash commutes with `CreateProject`. -/
theorem svcCreateProject_setHash (f : SvcFaults) (st : Store) (n d ph : String)
    (a : Time) (uid : Nat) (hp : String) :
    svcCreateProject f (setHashedPassword st uid hp) n d ph a =
      (svcCreateProject f st n d ph a).map
        (fun r => (r.1, setHashedPassword r.2 uid hp)) := by
  by_cases h1 : f.createProjectFails <;> by_cases h2 : n = "" <;>
    simp [svcCreateProject, setHashedPassword, h1, h2, Except.map]

/-- Overwriting a user's credential hash commutes with `AddParticipant`: the
persisted row embeds only the `ShortUser` projection, which does not carry
the hash. -/
theorem svcAddParticipant_setHash (f : SvcFaults) (st : Store)
    (role : ParticipantRole) (userID projectID uid : Nat) (hp : String) :
    svcAddParticipant f (setHashedPassword st uid hp) role userID projectID =
      (svcAddParticipant f st role userID projectID).map
        (fun r => (r.1, setHashedPassword r.2 uid hp)) := by
  have hcomp : ((fun u : User => u.id == userID) ∘
      (fun u : User => if u.id = uid then { u with hashedPassword := hp } else u)) =
      (fun u : User => u.id == userID) := by
    funext u; by_cases h : u.id = uid <;> simp [h]
  by_cases h1 : f.addParticipantFails
  · simp [svcAddParticipant, setHashedPassword, h1, Except.map]
  · simp only [svcAddParticipant, setHashedPassword, h1, Bool.false_eq_true, if_false,
      List.find?_map, hcomp]
    cases hf : st.users.find? (fun u => u.id == userID) with
    | none => simp [Except.map]
    | some u =>
      by_cases hd : st.participants.any
          (fun q => q.shortUser.id == userID && q.projectID == projectID)
      · simp [hd, Except.map]
      · by_cases hu : u.id = uid <;> simp [hd, Except.map, hu, toShortUser]

/-- C9: the `HashedPassword` column never reaches any project-endpoint
payload, in either projection family: overwriting any user's stored hash
leaves the `ShortUser` projection and the responses of the create, update
and project-info handlers unchanged. -/
theorem hashed_password_never_in_project_responses
    (st : Store) (uid : Nat) (hp : String) :
    (∀ u : User, toShortUser { u with hashedPassword := hp } = toShortUser u) ∧
    (∀ (f : SvcFaults) (body : Option CreateProjectReq) (ctx : Nat),
      (createProjectRun f (setHashedPassword st uid hp) body ctx).response =
        (createProjectRun f st body ctx).response) ∧
    (∀ (g : Globals) (b : String),
      (updateProjectRun g (setHashedPassword st uid hp) b).1 =
        (updateProjectRun g st b).1) ∧
    (∀ p : Option Nat,
      getProjectInfoRun (setHashedPassword st uid hp) p = getProjectInfoRun st p) := by
  refine ⟨fun u => rfl, ?_, ?_, ?_⟩
  · intro f body ctx
    cases body with
    | none => rfl
    | some req =>
      simp only [createProjectRun, svcCreateProject_setHash]
      cases svcCreateProject f st req.name req.description req.photoURL req.activeTo with
      | error e => simp [Except.map]
      | ok r =>
        simp only [Except.map, svcAddParticipant_setHash]
        cases svcAddParticipant f r.2 ParticipantRole.owner ctx r.1.id with
        | error e => simp [Except.map]
        | ok r2 => simp [Except.map]
  · intro g b
    simp only [updateProjectRun]
    cases hg : g.updatedProject with
    | none => rfl
    | some r =>
      simp only [svcUpdateProject, setHashedPassword]
      cases hf : st.projects.find? (fun p => p.id == r.id) with
      | none => rfl
      | some p => rfl
  · intro p
    cases p with
    | none => rfl
    | some pid =>
      simp only [getProjectInfoRun, svcGetProjectInfo, setHashedPassword]

/-- No gin handler of the `api` package ever turns a nil `deletedProjectID`
into a non-nil one: `parseBodyToDeletedProject` decodes into the pointer
without ever assigning it, and no other handler writes it at all. -/
theorem globalsEffect_preserves_nil_deletedProjectID
    (h : GinHandler) (g : Globals) (req : RequestData)
    (hg : g.deletedProjectID = none) :
    (globalsEffect h g req).deletedProjectID = none := by
  cases h <;>
    simp [globalsEffect, parseBodyToUpdatedProjectRun, parseBodyToDeletedProjectRun, hg]
  cases req.updateBody <;> simp [hg]

/-- Starting from the Go zero values, `deletedProjectID` stays nil across any
sequence of handler executions. -/
theorem runGlobals_deletedProjectID_none (l : List (GinHandler × RequestData)) :
    (runGlobals l).deletedProjectID = none := by
  suffices h : ∀ g : Globals, g.deletedProjectID = none →
      (l.foldl (fun g hr => globalsEffect hr.1 g hr.2) g).deletedProjectID = none by
    exact h initialGlobals rfl
  induction l with
  | nil => intro g hg; exact hg
  | cons hd tl ih =>
    intro g hg
    exact ih _ (globalsEffect_preserves_nil_deletedProjectID hd.1 g hd.2 hg)

/-- C10: `parseBodyToDeletedProject` is registered on no route (the delete
route in particular), it could not populate the package-level pointer anyway
(decoding into the nil `*int` only errors and assigns nothing), so after any
request sequence `deletedProjectID` is still nil; the `deleteProject` handler
then panics on the dereference and the service `DeleteProject` is never
called with a request-supplied id. -/
theorem deleteProject_nil_pointer_dereference
    (l : List (GinHandler × RequestData)) (st : Store) :
    (∀ r ∈ routes, GinHandler.parseBodyToDeletedProject ∉ r.middlewares ∧
        r.handler ≠ GinHandler.parseBodyToDeletedProject) ∧
    (∀ body, parseBodyToDeletedProjectRun (runGlobals l) body =
      (runGlobals l, some (HandlerOut.abort 400 "json: Unmarshal(nil *int)"))) ∧
    (runGlobals l).deletedProjectID = none ∧
    (deleteProjectRun (runGlobals l) st).panicNilDeref = true ∧
    (deleteProjectRun (runGlobals l) st).svcDeleteCalled = false := by
  have hnone := runGlobals_deletedProjectID_none l
  refine ⟨by decide, fun body => ?_, hnone, ?_, ?_⟩
  · simp [parseBodyToDeletedProjectRun, hnone]
  · simp [deleteProjectRun, hnone]
  · simp [deleteProjectRun, hnone]

/-- C10 (witness): after a run of the update handler and a body parse, the
delete handler still sees the nil pointer and never calls the service. -/
theorem deleteProject_nil_pointer_dereference_witness :
    GinHandler.parseBodyToDeletedProject ∉ deleteProjectRoute.middlewares ∧
    (deleteProjectRun
        (runGlobals [(GinHandler.updateProject, ⟨none, 0⟩),
          (GinHandler.parseBodyToUpdatedProject, ⟨some emptyUpdateBody, 0⟩)])
        twoProjectStore).panicNilDeref = true ∧
    (deleteProjectRun
        (runGlobals [(GinHandler.updateProject, ⟨none, 0⟩),
          (GinHandler.parseBodyToUpdatedProject, ⟨some emptyUpdateBody, 0⟩)])
        twoProjectStore).svcDeleteCalled = false :=
  ⟨((deleteProject_nil_pointer_dereference [] twoProjectStore).1
      deleteProjectRoute (by decide)).1,
   (deleteProject_nil_pointer_dereference
      [(GinHandler.updateProject, ⟨none, 0⟩),
       (GinHandler.parseBodyToUpdatedProject, ⟨some emptyUpdateBody, 0⟩)]
      twoProjectStore).2.2.2.1,
   (deleteProject_nil_pointer_dereference
      [(GinHandler.updateProject, ⟨none, 0⟩),
       (GinHandler.parseBodyToUpdatedProject, ⟨some emptyUpdateBody, 0⟩)]
      twoProjectStore).2.2.2.2⟩

end BeProjectMonitoring
